import Mathlib

/-!
Verification of the alumni-analytics ETL job (`src/main.py`).

The script pulls alumni survey records from Airtable, aggregates them into
four summary tables (`stats_company`, `stats_job_title`, `stats_major`,
`stats_location`) with pandas, and overwrites the corresponding BigQuery
tables.  This development shallowly embeds:

* the raw records (Airtable `fields` dicts reindexed to the safe columns),
* the four `dropna` + `groupby` + `size` aggregation passes,
* the location split (`str.split(',', expand=True, n=1)` followed by
  `str.strip()` and the constant `country`), including pandas' behaviour
  of dropping grouped rows whose grouping key is null,
* the module-level configuration check and client setup (as an effect
  trace), and
* the orchestration in `run_etl` together with the per-table error
  handling of `load_dataframe_to_bigquery` (as an effect trace acting on
  a warehouse state).

Strings from the data are modelled as `List Char` so that the character
level operations (split on first comma, whitespace strip) can be reasoned
about inductively; table and environment-variable names use Lean `String`.
-/

namespace ETL

/-! ### Data model: raw records and the per-field aggregations (T1-T3) -/

/-- Cell values of the source table, modelled at character level. -/
abbrev Str := List Char

/-- A raw record: the `fields` dict of one Airtable record, a mapping
from field name to string value.  Airtable omits empty fields, so a
null/absent field is simply an absent key; after
`df_raw.reindex(columns=safe_columns)` such entries are NaN. -/
abbrev RawRecord := List (String × Str)

/-- Looking one field up in a record; `none` models NaN (field absent
from the dict / filled in by `reindex`). -/
def getField (r : RawRecord) (k : String) : Option Str :=
  (r.find? (fun p => p.1 == k)).map Prod.snd

/-- The field names used by the three single-column aggregations. -/
def companyField : String := "Current Company"

def titleField : String := "Current Title"

def majorField : String := "Major"

def locationField : String := "Location"

/-- The non-null values of one column: `df_safe.dropna(subset=[f])[f]`. -/
def keysOf (rs : List RawRecord) (f : String) : List Str :=
  rs.filterMap (fun r => getField r f)

/-- `groupby(key).size().reset_index(...)`: one row per distinct key with
the number of occurrences.  Row order is insignificant downstream. -/
def groupCount {α : Type} [DecidableEq α] (ks : List α) : List (α × Nat) :=
  ks.dedup.map (fun k => (k, ks.count k))

/-- T1 of `run_etl`: `stats_company` as a list of
(company_name, alumni_count) rows. -/
def stats_company (rs : List RawRecord) : List (Str × Nat) :=
  groupCount (keysOf rs companyField)

/-- T2 of `run_etl`: `stats_job_title` as (job_title, job_count) rows. -/
def stats_job_title (rs : List RawRecord) : List (Str × Nat) :=
  groupCount (keysOf rs titleField)

/-- T3 of `run_etl`: `stats_major` as (major, major_count) rows. -/
def stats_major (rs : List RawRecord) : List (Str × Nat) :=
  groupCount (keysOf rs majorField)

/-- Sum of the count column of an aggregate table. -/
def sumCounts {α : Type} (t : List (α × Nat)) : Nat :=
  (t.map Prod.snd).sum

/-- The number of records whose field `f` is non-null. -/
def numNonNull (rs : List RawRecord) (f : String) : Nat :=
  (rs.filter (fun r => (getField r f).isSome)).length

/-! ### The location pipeline (T4 of `run_etl`) -/

/-- `str.strip()`: remove leading and trailing whitespace. -/
def strip (s : Str) : Str :=
  ((s.dropWhile Char.isWhitespace).reverse.dropWhile Char.isWhitespace).reverse

/-- Whether a string contains a comma. -/
def hasComma (s : Str) : Bool := s.any (fun c => c = ',')

/-- `str.split(',', expand=True, n=1)` on one cell: split on the first
comma only; a cell without a comma yields a single part, so its second
column is `None`. -/
def splitFirstComma : Str → Str × Option Str
  | [] => ([], none)
  | c :: s =>
    if c = ',' then ([], some s)
    else
      let p := splitFirstComma s
      (c :: p.1, p.2)

/-- The constant `country` column added to `df_location`. -/
def usCountry : Str := "United States".toList

/-- One row of `df_location` after the split, the two `str.strip()`
calls and the constant country column.  `state` is `none` (NaN) exactly
when the `Location` cell had no comma. -/
structure LocationRow where
  city : Str
  state : Option Str
  country : Str
deriving DecidableEq, Repr

/-- The transform applied to one non-null `Location` cell. -/
def locationRow (loc : Str) : LocationRow :=
  let p := splitFirstComma loc
  ⟨strip p.1, p.2.map strip, usCountry⟩

/-- The grouping key `(country, state, city)` of one `df_location` row.
pandas `groupby` uses `dropna=True`: a row whose `state` is NaN has no
key and is dropped from the grouped result. -/
def locKeyOfRow (row : LocationRow) : Option (Str × Str × Str) :=
  row.state.map (fun st => (row.country, st, row.city))

/-- The non-null `Location` cells: `df_safe.dropna(subset=['Location'])`. -/
def locationKeys (rs : List RawRecord) : List Str :=
  keysOf rs locationField

/-- The multiset of grouping keys entering the `groupby` of T4. -/
def locationGroupKeys (rs : List RawRecord) : List (Str × Str × Str) :=
  (locationKeys rs).filterMap (fun loc => locKeyOfRow (locationRow loc))

/-- T4 of `run_etl`: `stats_location` as ((country, state, city),
alumni_count) rows. -/
def stats_location (rs : List RawRecord) : List ((Str × Str × Str) × Nat) :=
  groupCount (locationGroupKeys rs)

/-- Whether the two-column assignment
`df_location[['city', 'state_raw']] = ...str.split(',', expand=True, n=1)`
succeeds.  `expand=True` produces as many columns as the maximum number
of parts actually observed, so the result has the required two columns
exactly when at least one non-null `Location` contains a comma;
otherwise pandas raises `ValueError: Columns must be same length as
key`, which no handler catches. -/
def locationSplitOk (rs : List RawRecord) : Bool :=
  (locationKeys rs).any hasComma

/-- The location table the program actually produces: `none` when the
two-column assignment of T4 raises (so the run dies and no table
exists). -/
def stats_locationProduced (rs : List RawRecord) :
    Option (List ((Str × Str × Str) × Nat)) :=
  if locationSplitOk rs then some (stats_location rs) else none

/-- A `Location` cell is parseable when the split produces a state part,
i.e. when the cell contains a comma. -/
def parseable (loc : Str) : Bool := (splitFirstComma loc).2.isSome

/-- A record has a non-null, parseable `Location` field. -/
def hasParseableLocation (r : RawRecord) : Bool :=
  match getField r locationField with
  | some loc => parseable loc
  | none => false

/-- The grouping key contributed by one raw record to T4, if any. -/
def recLocKey (r : RawRecord) : Option (Str × Str × Str) :=
  (getField r locationField).bind (fun loc => locKeyOfRow (locationRow loc))

/-- A string consisting of whitespace only. -/
def allWS (w : Str) : Bool := w.all Char.isWhitespace

/-! ### Configuration check and client setup (module scope) -/

/-- The five required environment variables, in the order read. -/
def requiredVars : List String :=
  ["AIRTABLE_BASE_ID", "AIRTABLE_TABLE_NAME", "AIRTABLE_API_KEY",
    "GCP_PROJECT_ID", "BIGQUERY_DATASET_ID"]

/-- Python truthiness of an `os.getenv` result as used by
`all([...])`: `None` and the empty string are falsy, any other string is
truthy. -/
def truthy : Option String → Bool
  | none => false
  | some s => !(s == "")

/-- Effects of the module-scope setup code, in program order. -/
inductive SetupEffect where
  | readEnv (name : String)
  | printMissingConfig (names : List String)
  | exitProcess
  | connectAirtable
  | connectBigQuery
deriving DecidableEq, Repr

/-- The guard `all([AIRTABLE_BASE_ID, ..., BIGQUERY_DATASET_ID])`. -/
def configOk (env : String → Option String) : Bool :=
  (requiredVars.map env).all truthy

/-- The module setup: read the five variables; if the `all` check fails,
print the diagnostic naming all five variables and `exit()`; otherwise
construct the Airtable and BigQuery clients. -/
def setupTrace (env : String → Option String) : List SetupEffect :=
  requiredVars.map SetupEffect.readEnv ++
    (if configOk env then
      [SetupEffect.connectAirtable, SetupEffect.connectBigQuery]
    else
      [SetupEffect.printMissingConfig requiredVars, SetupEffect.exitProcess])

/-! ### Orchestration (`run_etl`) and the load helper -/

/-- An aggregate table as loaded to BigQuery: rows of grouping-key
columns plus a count. -/
abbrev Table := List (List Str × Nat)

/-- `stats_company` in row form. -/
def companyTable (rs : List RawRecord) : Table :=
  (stats_company rs).map (fun p => ([p.1], p.2))

/-- `stats_jobs` in row form. -/
def jobTitleTable (rs : List RawRecord) : Table :=
  (stats_job_title rs).map (fun p => ([p.1], p.2))

/-- `stats_major` in row form. -/
def majorTable (rs : List RawRecord) : Table :=
  (stats_major rs).map (fun p => ([p.1], p.2))

/-- `stats_location` in row form: country, state, city, count. -/
def locationTable (rs : List RawRecord) : Table :=
  (stats_location rs).map (fun p => ([p.1.1, p.1.2.1, p.1.2.2], p.2))

/-- Outcome of one BigQuery load job, supplied by the environment:
success, `google_exceptions.NotFound`, or any other exception. -/
inductive LoadOutcome where
  | ok
  | notFound (msg : String)
  | failed (msg : String)
deriving DecidableEq, Repr

/-- Observable events of one `run_etl` invocation.  `transformError` is
the uncaught `ValueError` of the T4 column assignment: the process dies
with a traceback mid-transform, before any load. -/
inductive RunEffect where
  | extractStart
  | printExtractError (msg : String)
  | transformed
  | transformError
  | attemptLoad (name : String)
  | loadSuccess (name : String) (t : Table)
  | printNotFoundError (name : String) (msg : String)
  | printLoadError (name : String) (msg : String)
  | printFinished
deriving DecidableEq, Repr

/-- `load_dataframe_to_bigquery`: attempt the load job; a `NotFound` or
any other exception is caught and printed inside the function, so no
exception ever escapes it. -/
def load_dataframe_to_bigquery (t : Table) (name : String)
    (outcome : String → LoadOutcome) : List RunEffect :=
  match outcome name with
  | .ok => [.attemptLoad name, .loadSuccess name t]
  | .notFound m => [.attemptLoad name, .printNotFoundError name m]
  | .failed m => [.attemptLoad name, .printLoadError name m]

/-- The trace of a run whose transform completed: extraction, the
finished transform, the four sequential load calls, and the final
message. -/
def run_etl_ok_trace (rs : List RawRecord)
    (outcome : String → LoadOutcome) : List RunEffect :=
  [.extractStart, .transformed] ++
    load_dataframe_to_bigquery (companyTable rs) "stats_company" outcome ++
    load_dataframe_to_bigquery (jobTitleTable rs) "stats_job_title" outcome ++
    load_dataframe_to_bigquery (majorTable rs) "stats_major" outcome ++
    load_dataframe_to_bigquery (locationTable rs) "stats_location" outcome ++
    [.printFinished]

/-- `run_etl`: an extraction failure prints the error and returns, so
nothing further runs.  On successful extraction the transform runs
T1-T3 and then T4: if no non-null `Location` contains a comma, the
two-column assignment raises an uncaught `ValueError` and the run dies
before any load; otherwise the four load calls follow. -/
def run_etl (ext : Except String (List RawRecord))
    (outcome : String → LoadOutcome) : List RunEffect :=
  match ext with
  | .error m => [.extractStart, .printExtractError m]
  | .ok rs =>
    if locationSplitOk rs then run_etl_ok_trace rs outcome
    else [.extractStart, .transformError]

/-- Warehouse state: table name → contents (`none` = table absent). -/
def Warehouse := String → Option Table

/-- Effect of one run event on the warehouse: a completed load job with
`WRITE_TRUNCATE` replaces the destination table's contents (creating the
table if absent); no other event touches the warehouse. -/
def applyEffect (w : Warehouse) : RunEffect → Warehouse
  | .loadSuccess name t => fun x => if x = name then some t else w x
  | _ => w

/-- The warehouse after a sequence of run events. -/
def applyTrace (w : Warehouse) (tr : List RunEffect) : Warehouse :=
  tr.foldl applyEffect w

/-- The four destination table names, in load order. -/
def tableNames : List String :=
  ["stats_company", "stats_job_title", "stats_major", "stats_location"]

/-! ### Concrete inputs for the closed instantiations -/

/-- A record located in "Austin, TX". -/
def recAustin : RawRecord :=
  [("Current Company", "Acme".toList), ("Location", "Austin, TX".toList)]

/-- A record whose `Location` has no comma. -/
def recDallas : RawRecord := [("Location", "Dallas".toList)]

/-- A record with a company but no title. -/
def recAcmeOnly : RawRecord := [("Current Company", "Acme".toList)]

/-- A two-record set mixing a comma and a comma-free location. -/
def rsMixed : List RawRecord := [recAustin, recDallas]

/-- An environment in which every variable is unset. -/
def envAllMissing : String → Option String := fun _ => none

/-- An environment in which every variable is set to the empty string. -/
def envAllEmpty : String → Option String := fun _ => some ""

/-- A load environment in which only the `stats_major` job fails. -/
def outcomeMajorFails : String → LoadOutcome := fun n =>
  if n = "stats_major" then LoadOutcome.failed "quota exceeded" else LoadOutcome.ok

/-- A load environment in which every job would succeed. -/
def outcomeAllOk : String → LoadOutcome := fun _ => LoadOutcome.ok

/-! ### Helper lemmas -/

lemma length_keysOf (rs : List RawRecord) (f : String) :
    (keysOf rs f).length = numNonNull rs f := by
  induction rs with
  | nil => rfl
  | cons r rs ih =>
    simp only [keysOf, numNonNull, List.filterMap_cons, List.filter_cons] at *
    cases h : getField r f with
    | none => simpa [h] using ih
    | some v => simpa [h] using ih

lemma sumCounts_groupCount {α : Type} [DecidableEq α] (ks : List α) :
    sumCounts (groupCount ks) = ks.length := by
  simpa [sumCounts, groupCount, Function.comp] using
    List.sum_map_count_dedup_eq_length ks

lemma nodup_groupCount_keys {α : Type} [DecidableEq α] (ks : List α) :
    ((groupCount ks).map Prod.fst).Nodup := by
  have : (groupCount ks).map Prod.fst = ks.dedup := by
    simp [groupCount, Function.comp_def]
  simpa [this] using ks.nodup_dedup

lemma pos_count_groupCount {α : Type} [DecidableEq α] (ks : List α) :
    ∀ row ∈ groupCount ks, 1 ≤ row.2 := by
  intro row hrow
  rcases List.mem_map.mp hrow with ⟨k, hk, rfl⟩
  exact List.count_pos_iff.mpr (List.mem_dedup.mp hk)

lemma splitFirstComma_no_comma (s : Str) (h : hasComma s = false) :
    splitFirstComma s = (s, none) := by
  induction s with
  | nil => rfl
  | cons c s ih =>
    simp only [hasComma, List.any_cons, Bool.or_eq_false_iff, decide_eq_false_iff_not] at h
    simp [splitFirstComma, h.1, ih (by simpa [hasComma] using h.2)]

lemma splitFirstComma_some (s : Str) :
    ∀ before after, splitFirstComma s = (before, some after) →
      s = before ++ ',' :: after ∧ hasComma before = false := by
  induction s with
  | nil => intro b a h; simp [splitFirstComma] at h
  | cons c s ih =>
    intro b a h
    by_cases hc : c = ','
    · rw [splitFirstComma, if_pos hc] at h
      injection h with h1 h2
      injection h2 with h2
      subst hc
      simp [← h1, h2, hasComma]
    · rw [splitFirstComma, if_neg hc] at h
      injection h with h1 h2
      obtain ⟨hs, hbf⟩ := ih (splitFirstComma s).1 a (Prod.ext_iff.mpr ⟨rfl, h2⟩)
      refine ⟨?_, ?_⟩
      · rw [← h1]
        simp only [List.cons_append]
        exact congrArg (List.cons c) hs
      · rw [← h1]
        simp only [hasComma, List.any_cons, Bool.or_eq_false_iff,
          decide_eq_false_iff_not] at hbf ⊢
        exact ⟨hc, hbf⟩

lemma parseable_iff_hasComma (s : Str) : parseable s = hasComma s := by
  induction s with
  | nil => rfl
  | cons c s ih =>
    by_cases hc : c = ','
    · simp [parseable, splitFirstComma, hasComma, hc]
    · simp only [parseable, splitFirstComma, if_neg hc, hasComma, List.any_cons] at *
      simp [hc, ih]

lemma takeWhile_allWS (s : Str) : allWS (s.takeWhile Char.isWhitespace) := by
  simp only [allWS, List.all_eq_true]
  intro c hc
  exact List.mem_takeWhile_imp hc

lemma strip_decomp (s : Str) :
    ∃ w1 w2, allWS w1 = true ∧ allWS w2 = true ∧ s = w1 ++ strip s ++ w2 := by
  refine ⟨s.takeWhile Char.isWhitespace,
    ((s.dropWhile Char.isWhitespace).reverse.takeWhile Char.isWhitespace).reverse,
      takeWhile_allWS s, ?_, ?_⟩
  · have := takeWhile_allWS (s.dropWhile Char.isWhitespace).reverse
    simp only [allWS, List.all_eq_true] at this ⊢
    intro c hc
    exact this c (List.mem_reverse.mp hc)
  · have h2 := congrArg List.reverse
      (List.takeWhile_append_dropWhile (p := Char.isWhitespace)
        (l := (s.dropWhile Char.isWhitespace).reverse))
    simp only [List.reverse_append, List.reverse_reverse] at h2
    rw [List.append_assoc]
    conv_lhs => rw [← List.takeWhile_append_dropWhile (p := Char.isWhitespace) (l := s)]
    congr 1
    simp only [strip]
    exact h2.symm

lemma mem_strip {c : Char} {s : Str} (h : c ∈ strip s) : c ∈ s := by
  obtain ⟨w1, w2, _, _, hs⟩ := strip_decomp s
  rw [hs]
  simp [h]

lemma length_filterMap_eq {α β : Type} (f : α → Option β) (l : List α) :
    (l.filterMap f).length = (l.filter (fun x => (f x).isSome)).length := by
  induction l with
  | nil => rfl
  | cons a l ih =>
    simp only [List.filterMap_cons, List.filter_cons]
    cases h : f a <;> simp [h, ih]

lemma locationGroupKeys_eq (rs : List RawRecord) :
    locationGroupKeys rs = rs.filterMap recLocKey := by
  simp only [locationGroupKeys, locationKeys, keysOf, List.filterMap_filterMap]
  rfl

lemma recLocKey_isSome (r : RawRecord) :
    (recLocKey r).isSome = hasParseableLocation r := by
  cases h : getField r locationField with
  | none => simp [recLocKey, hasParseableLocation, h]
  | some loc =>
    cases hp : (splitFirstComma loc).2 with
    | none =>
      simp [recLocKey, hasParseableLocation, h, parseable, locKeyOfRow, locationRow, hp]
    | some after =>
      simp [recLocKey, hasParseableLocation, h, parseable, locKeyOfRow, locationRow, hp]

lemma length_locationGroupKeys (rs : List RawRecord) :
    (locationGroupKeys rs).length = (rs.filter hasParseableLocation).length := by
  rw [locationGroupKeys_eq, length_filterMap_eq]
  congr 1
  apply List.filter_congr
  intro r _
  exact recLocKey_isSome r

lemma country_of_mem_locationGroupKeys (rs : List RawRecord) (k : Str × Str × Str)
    (hk : k ∈ locationGroupKeys rs) : k.1 = usCountry := by
  rw [locationGroupKeys_eq] at hk
  rcases List.mem_filterMap.mp hk with ⟨r, _, hr⟩
  simp only [recLocKey, Option.bind_eq_some] at hr
  obtain ⟨loc, _, hkey⟩ := hr
  simp only [locKeyOfRow, Option.map_eq_some'] at hkey
  obtain ⟨st, _, hk2⟩ := hkey
  rw [← hk2]
  rfl

lemma configOk_false_of_untruthy (env : String → Option String) (v : String)
    (hv : v ∈ requiredVars) (h : truthy (env v) = false) : configOk env = false := by
  cases hc : configOk env with
  | false => rfl
  | true =>
    rw [configOk, List.all_eq_true] at hc
    have := hc (env v) (List.mem_map_of_mem env hv)
    rw [h] at this
    exact absurd this (by simp)

lemma attemptLoad_mem_block (t : Table) (name : String)
    (outcome : String → LoadOutcome) :
    RunEffect.attemptLoad name ∈ load_dataframe_to_bigquery t name outcome := by
  cases h : outcome name <;> simp [load_dataframe_to_bigquery, h]

lemma logged_mem_block (t : Table) (name em : String)
    (outcome : String → LoadOutcome)
    (h : outcome name = LoadOutcome.notFound em ∨
      outcome name = LoadOutcome.failed em) :
    RunEffect.printNotFoundError name em ∈ load_dataframe_to_bigquery t name outcome ∨
    RunEffect.printLoadError name em ∈ load_dataframe_to_bigquery t name outcome := by
  rcases h with h | h <;> simp [load_dataframe_to_bigquery, h]

lemma applyTrace_append (w : Warehouse) (a b : List RunEffect) :
    applyTrace w (a ++ b) = applyTrace (applyTrace w a) b :=
  List.foldl_append ..

lemma applyTrace_block_of_not_ok (w : Warehouse) (t : Table) (n : String)
    (outcome : String → LoadOutcome) (name : String)
    (h : outcome name ≠ LoadOutcome.ok) :
    applyTrace w (load_dataframe_to_bigquery t n outcome) name = w name := by
  by_cases hn : name = n
  · subst hn
    cases ho : outcome name with
    | ok => exact absurd ho h
    | notFound m => simp [load_dataframe_to_bigquery, ho, applyTrace, applyEffect]
    | failed m => simp [load_dataframe_to_bigquery, ho, applyTrace, applyEffect]
  · cases ho : outcome n with
    | ok => simp [load_dataframe_to_bigquery, ho, applyTrace, applyEffect, hn]
    | notFound m => simp [load_dataframe_to_bigquery, ho, applyTrace, applyEffect]
    | failed m => simp [load_dataframe_to_bigquery, ho, applyTrace, applyEffect]

lemma run_etl_ok_of_splitOk (rs : List RawRecord)
    (outcome : String → LoadOutcome) (h : locationSplitOk rs = true) :
    run_etl (Except.ok rs) outcome = run_etl_ok_trace rs outcome := by
  simp [run_etl, h]

/-! ### Claim theorems -/

/-- C1: for every raw record set, the counts in `stats_company` sum to
the number of records with a non-null `Current Company`, and likewise
for `stats_job_title` with `Current Title` and `stats_major` with
`Major`. -/
theorem stats_counts_sum_to_nonnull (rs : List RawRecord) :
    sumCounts (stats_company rs) = numNonNull rs companyField ∧
    sumCounts (stats_job_title rs) = numNonNull rs titleField ∧
    sumCounts (stats_major rs) = numNonNull rs majorField := by
  refine ⟨?_, ?_, ?_⟩
  · rw [stats_company, sumCounts_groupCount, length_keysOf]
  · rw [stats_job_title, sumCounts_groupCount, length_keysOf]
  · rw [stats_major, sumCounts_groupCount, length_keysOf]

/-- C2 (counterexample): in the record set `rsMixed`, the record whose
`Location` is "Dallas" (non-null, no comma) is NOT counted in
`stats_location`: the grouped table has a single row for Austin, no row
with city "Dallas", and its counts sum to 1, not 2.  The comma-free
record is dropped because its `state` is NaN and pandas `groupby` drops
null keys. -/
theorem no_comma_location_counted_cex :
    getField recDallas locationField = some "Dallas".toList ∧
    hasComma "Dallas".toList = false ∧
    stats_location rsMixed = [((usCountry, "TX".toList, "Austin".toList), 1)] ∧
    (∀ row ∈ stats_location rsMixed, row.1.2.2 ≠ strip "Dallas".toList) ∧
    sumCounts (stats_location rsMixed) = 1 := by decide

/-- C2 (amended): a record whose `Location` is non-null and comma-free
yields an intermediate `df_location` row whose city is the whole
whitespace-stripped string and whose state is null — but the
`groupby(['country', 'state', 'city'])` then drops that row (null
grouping key), so the record is excluded from `stats_location` rather
than counted. -/
theorem no_comma_location_row_dropped (loc : Str) (h : hasComma loc = false) :
    locationRow loc = ⟨strip loc, none, usCountry⟩ ∧
    locKeyOfRow (locationRow loc) = none := by
  have hs := splitFirstComma_no_comma loc h
  constructor
  · simp [locationRow, hs]
  · simp [locKeyOfRow, locationRow, hs]

/-- Closed instantiation of the amended C2 at `Location` = "Dallas". -/
theorem no_comma_location_row_dropped_witness :
    hasComma "Dallas".toList = false ∧
    (locationRow "Dallas".toList = ⟨strip "Dallas".toList, none, usCountry⟩ ∧
      locKeyOfRow (locationRow "Dallas".toList) = none) :=
  ⟨by decide, no_comma_location_row_dropped "Dallas".toList (by decide)⟩

/-- C3: for every `Location` string with at least one comma, the split
on the first comma plus `strip` of both parts yields a comma-free city
and a state such that the original string is exactly
whitespace ++ city ++ whitespace ++ comma ++ whitespace ++ state ++
whitespace: joining `city ++ ", " ++ state` restores the original up to
whitespace normalization. -/
theorem location_split_round_trip (loc : Str) (h : hasComma loc = true) :
    ∃ st, (locationRow loc).state = some st ∧
      hasComma (locationRow loc).city = false ∧
      ∃ w1 w2 w3 w4, allWS w1 = true ∧ allWS w2 = true ∧ allWS w3 = true ∧
        allWS w4 = true ∧
        loc = w1 ++ (locationRow loc).city ++ w2 ++ [','] ++ w3 ++ st ++ w4 := by
  have hp : parseable loc = true := by rw [parseable_iff_hasComma, h]
  rw [parseable, Option.isSome_iff_exists] at hp
  obtain ⟨after, hafter⟩ := hp
  obtain ⟨hsplit, hbf⟩ := splitFirstComma_some loc (splitFirstComma loc).1 after
    (Prod.ext_iff.mpr ⟨rfl, hafter⟩)
  obtain ⟨w1, w2, hw1, hw2, hb⟩ := strip_decomp (splitFirstComma loc).1
  obtain ⟨w3, w4, hw3, hw4, ha⟩ := strip_decomp after
  have hstate : (locationRow loc).state = some (strip after) := by
    simp [locationRow, hafter]
  have hcity : (locationRow loc).city = strip (splitFirstComma loc).1 := rfl
  refine ⟨strip after, hstate, ?_, w1, w2, w3, w4, hw1, hw2, hw3, hw4, ?_⟩
  · rw [hcity, hasComma, List.any_eq_false]
    intro c hc
    rw [hasComma, List.any_eq_false] at hbf
    exact hbf c (mem_strip hc)
  · rw [hcity]
    conv_lhs => rw [hsplit]
    conv_lhs => rw [hb, ha]
    simp [List.append_assoc]

/-- Closed instantiation of C3 at `Location` = " Austin ,  TX ". -/
theorem location_split_round_trip_witness :
    hasComma " Austin ,  TX ".toList = true ∧
    (∃ st, (locationRow " Austin ,  TX ".toList).state = some st ∧
      hasComma (locationRow " Austin ,  TX ".toList).city = false ∧
      ∃ w1 w2 w3 w4, allWS w1 = true ∧ allWS w2 = true ∧ allWS w3 = true ∧
        allWS w4 = true ∧
        " Austin ,  TX ".toList =
          w1 ++ (locationRow " Austin ,  TX ".toList).city ++ w2 ++ [','] ++
            w3 ++ st ++ w4) :=
  ⟨by decide, location_split_round_trip " Austin ,  TX ".toList (by decide)⟩

/-- C4 (counterexample): for the record set whose only non-null
`Location` is "Dallas" (comma-free), the T4 two-column assignment
raises an uncaught `ValueError`: no `stats_location` table is produced
at all and the run dies mid-transform, so "for every raw record set the
counts in stats_location sum to ..." fails — for this record set the
program produces no such table. -/
theorem stats_location_crash_cex :
    getField recDallas locationField = some "Dallas".toList ∧
    locationSplitOk [recDallas] = false ∧
    stats_locationProduced [recDallas] = none ∧
    run_etl (Except.ok [recDallas]) outcomeAllOk =
      [RunEffect.extractStart, RunEffect.transformError] ∧
    (∀ n ∈ tableNames, RunEffect.attemptLoad n ∉
      run_etl (Except.ok [recDallas]) outcomeAllOk) := by decide

/-- C4 (amended): for every raw record set for which the T4 two-column
assignment succeeds — at least one non-null `Location` contains a comma
— `stats_location` is produced, its counts sum to the number of records
with a non-null, parseable `Location` (one the split turns into a city
and a state, i.e. containing a comma), and every row's country is
"United States". -/
theorem stats_location_sum_and_country (rs : List RawRecord)
    (hsplit : locationSplitOk rs = true) :
    stats_locationProduced rs = some (stats_location rs) ∧
    sumCounts (stats_location rs) = (rs.filter hasParseableLocation).length ∧
    ∀ row ∈ stats_location rs, row.1.1 = usCountry := by
  refine ⟨by simp [stats_locationProduced, hsplit], ?_, ?_⟩
  · rw [stats_location, sumCounts_groupCount, length_locationGroupKeys]
  · intro row hrow
    rcases List.mem_map.mp hrow with ⟨k, hk, rfl⟩
    exact country_of_mem_locationGroupKeys rs k (List.mem_dedup.mp hk)

/-- Closed instantiation of the amended C4 at `rsMixed`. -/
theorem stats_location_sum_and_country_witness :
    locationSplitOk rsMixed = true ∧
    (stats_locationProduced rsMixed = some (stats_location rsMixed) ∧
      sumCounts (stats_location rsMixed) =
        (rsMixed.filter hasParseableLocation).length ∧
      ∀ row ∈ stats_location rsMixed, row.1.1 = usCountry) :=
  ⟨by decide, stats_location_sum_and_country rsMixed (by decide)⟩

/-- C5: the four aggregates are computed independently: a record with a
null `Current Title` but a non-null `Current Company` leaves
`stats_job_title` completely unchanged while it adds one to the total
count of `stats_company`, where its company appears as a key. -/
theorem aggregation_isolation (rs : List RawRecord) (r : RawRecord) (c : Str)
    (ht : getField r titleField = none) (hc : getField r companyField = some c) :
    stats_job_title (rs ++ [r]) = stats_job_title rs ∧
    sumCounts (stats_company (rs ++ [r])) = sumCounts (stats_company rs) + 1 ∧
    c ∈ (stats_company (rs ++ [r])).map Prod.fst := by
  have hkt : keysOf (rs ++ [r]) titleField = keysOf rs titleField := by
    simp [keysOf, List.filterMap_append, ht]
  have hkc : keysOf (rs ++ [r]) companyField = keysOf rs companyField ++ [c] := by
    simp [keysOf, List.filterMap_append, hc]
  refine ⟨?_, ?_, ?_⟩
  · rw [stats_job_title, hkt, stats_job_title]
  · rw [stats_company, sumCounts_groupCount, hkc, stats_company,
      sumCounts_groupCount]
    simp
  · have hfst : (stats_company (rs ++ [r])).map Prod.fst =
        (keysOf (rs ++ [r]) companyField).dedup := by
      simp [stats_company, groupCount, Function.comp_def]
    rw [hfst, List.mem_dedup, hkc]
    simp

/-- Closed instantiation of C5: one record with a company and no
title. -/
theorem aggregation_isolation_witness :
    (getField recAcmeOnly titleField = none ∧
      getField recAcmeOnly companyField = some "Acme".toList) ∧
    (stats_job_title ([] ++ [recAcmeOnly]) = stats_job_title [] ∧
      sumCounts (stats_company ([] ++ [recAcmeOnly])) =
        sumCounts (stats_company []) + 1 ∧
      "Acme".toList ∈ (stats_company ([] ++ [recAcmeOnly])).map Prod.fst) :=
  ⟨⟨by decide, by decide⟩,
    aggregation_isolation [] recAcmeOnly "Acme".toList (by decide) (by decide)⟩

/-- C10: each of the four aggregate outputs is a well-formed frequency
table: its grouping keys are pairwise distinct and every row's count is
at least 1. -/
theorem aggregates_are_frequency_tables (rs : List RawRecord) :
    (((stats_company rs).map Prod.fst).Nodup ∧
      ∀ row ∈ stats_company rs, 1 ≤ row.2) ∧
    (((stats_job_title rs).map Prod.fst).Nodup ∧
      ∀ row ∈ stats_job_title rs, 1 ≤ row.2) ∧
    (((stats_major rs).map Prod.fst).Nodup ∧
      ∀ row ∈ stats_major rs, 1 ≤ row.2) ∧
    (((stats_location rs).map Prod.fst).Nodup ∧
      ∀ row ∈ stats_location rs, 1 ≤ row.2) :=
  ⟨⟨nodup_groupCount_keys _, pos_count_groupCount _⟩,
    ⟨nodup_groupCount_keys _, pos_count_groupCount _⟩,
    ⟨nodup_groupCount_keys _, pos_count_groupCount _⟩,
    ⟨nodup_groupCount_keys _, pos_count_groupCount _⟩⟩

/-- C6: if a required configuration value is missing from the
environment, the module setup prints the diagnostic naming all five
variables and exits; neither the Airtable nor the BigQuery client is
constructed, so no external service is contacted. -/
theorem missing_config_aborts_setup (env : String → Option String) (v : String)
    (hv : v ∈ requiredVars) (h : env v = none) :
    configOk env = false ∧
    setupTrace env =
      requiredVars.map SetupEffect.readEnv ++
        [SetupEffect.printMissingConfig requiredVars, SetupEffect.exitProcess] ∧
    SetupEffect.connectAirtable ∉ setupTrace env ∧
    SetupEffect.connectBigQuery ∉ setupTrace env := by
  have hfalse : configOk env = false :=
    configOk_false_of_untruthy env v hv (by rw [h]; rfl)
  have htr : setupTrace env =
      requiredVars.map SetupEffect.readEnv ++
        [SetupEffect.printMissingConfig requiredVars, SetupEffect.exitProcess] := by
    simp [setupTrace, hfalse]
  exact ⟨hfalse, htr, by rw [htr]; decide, by rw [htr]; decide⟩

/-- Closed instantiation of C6 with every variable unset. -/
theorem missing_config_aborts_setup_witness :
    ("AIRTABLE_BASE_ID" ∈ requiredVars ∧ envAllMissing "AIRTABLE_BASE_ID" = none) ∧
    (configOk envAllMissing = false ∧
      setupTrace envAllMissing =
        requiredVars.map SetupEffect.readEnv ++
          [SetupEffect.printMissingConfig requiredVars, SetupEffect.exitProcess] ∧
      SetupEffect.connectAirtable ∉ setupTrace envAllMissing ∧
      SetupEffect.connectBigQuery ∉ setupTrace envAllMissing) :=
  ⟨⟨by decide, rfl⟩,
    missing_config_aborts_setup envAllMissing "AIRTABLE_BASE_ID" (by decide) rfl⟩

/-- C9: a required variable that is present but equal to the empty
string is treated exactly like a missing one — the `all([...])` guard
tests truthiness — so the setup runs the identical diagnostic-and-exit
path and constructs no client. -/
theorem empty_config_value_like_missing (env : String → Option String) (v : String)
    (hv : v ∈ requiredVars) (h : env v = some "") :
    configOk env = false ∧
    setupTrace env = setupTrace (fun x => if x = v then none else env x) ∧
    SetupEffect.printMissingConfig requiredVars ∈ setupTrace env ∧
    SetupEffect.exitProcess ∈ setupTrace env ∧
    SetupEffect.connectAirtable ∉ setupTrace env ∧
    SetupEffect.connectBigQuery ∉ setupTrace env := by
  have hfalse : configOk env = false :=
    configOk_false_of_untruthy env v hv (by rw [h]; rfl)
  have hfalse2 : configOk (fun x => if x = v then none else env x) = false :=
    configOk_false_of_untruthy _ v hv (by simp [truthy])
  have htr : setupTrace env =
      requiredVars.map SetupEffect.readEnv ++
        [SetupEffect.printMissingConfig requiredVars, SetupEffect.exitProcess] := by
    simp [setupTrace, hfalse]
  have htr2 : setupTrace (fun x => if x = v then none else env x) =
      requiredVars.map SetupEffect.readEnv ++
        [SetupEffect.printMissingConfig requiredVars, SetupEffect.exitProcess] := by
    simp [setupTrace, hfalse2]
  exact ⟨hfalse, htr.trans htr2.symm, by rw [htr]; decide, by rw [htr]; decide,
    by rw [htr]; decide, by rw [htr]; decide⟩

/-- Closed instantiation of C9 with every variable set to the empty
string. -/
theorem empty_config_value_like_missing_witness :
    ("AIRTABLE_BASE_ID" ∈ requiredVars ∧
      envAllEmpty "AIRTABLE_BASE_ID" = some "") ∧
    (configOk envAllEmpty = false ∧
      setupTrace envAllEmpty =
        setupTrace (fun x => if x = "AIRTABLE_BASE_ID" then none else envAllEmpty x) ∧
      SetupEffect.printMissingConfig requiredVars ∈ setupTrace envAllEmpty ∧
      SetupEffect.exitProcess ∈ setupTrace envAllEmpty ∧
      SetupEffect.connectAirtable ∉ setupTrace envAllEmpty ∧
      SetupEffect.connectBigQuery ∉ setupTrace envAllEmpty) :=
  ⟨⟨by decide, rfl⟩,
    empty_config_value_like_missing envAllEmpty "AIRTABLE_BASE_ID" (by decide) rfl⟩

/-- C7: when extraction fails, `run_etl` prints the error and returns
at once: the trace is just the extract attempt and the error message —
no transform, no load attempt, no successful load — and the warehouse is
left unchanged. -/
theorem extraction_failure_aborts_run (m : String)
    (outcome : String → LoadOutcome) (w : Warehouse) :
    run_etl (Except.error m) outcome =
      [RunEffect.extractStart, RunEffect.printExtractError m] ∧
    RunEffect.transformed ∉ run_etl (Except.error m) outcome ∧
    (∀ n, RunEffect.attemptLoad n ∉ run_etl (Except.error m) outcome) ∧
    (∀ n t, RunEffect.loadSuccess n t ∉ run_etl (Except.error m) outcome) ∧
    ∀ n, applyTrace w (run_etl (Except.error m) outcome) n = w n := by
  refine ⟨rfl, by simp [run_etl], fun n => by simp [run_etl],
    fun n t => by simp [run_etl], fun n => rfl⟩

/-- C8 (counterexample): with a record set whose only non-null
`Location` lacks a comma and a load environment in which the
`stats_major` load would fail, extraction succeeds but the run dies in
TRANSFORM (uncaught `ValueError` of the T4 assignment): no load is
attempted for any of the four tables and the final message is never
printed, so "the remaining load operations are still attempted, so the
run still completes" fails for this run. -/
theorem load_failure_crash_cex :
    ("stats_major" ∈ tableNames ∧
      outcomeMajorFails "stats_major" = LoadOutcome.failed "quota exceeded") ∧
    locationSplitOk [recDallas] = false ∧
    run_etl (Except.ok [recDallas]) outcomeMajorFails =
      [RunEffect.extractStart, RunEffect.transformError] ∧
    (∀ n ∈ tableNames, RunEffect.attemptLoad n ∉
      run_etl (Except.ok [recDallas]) outcomeMajorFails) ∧
    (run_etl (Except.ok [recDallas]) outcomeMajorFails).getLast? ≠
      some RunEffect.printFinished := by decide

/-- C8 (amended): provided the transform completes (at least one
non-null `Location` contains a comma), a failing load of one of the
four tables (`NotFound` or any other error) is logged by the helper and
does not propagate: all four loads are still attempted, the run reaches
its final message, and the failing table's warehouse contents are
unchanged. -/
theorem load_failure_isolated (rs : List RawRecord)
    (outcome : String → LoadOutcome) (name em : String)
    (hsplit : locationSplitOk rs = true)
    (hn : name ∈ tableNames)
    (hf : outcome name = LoadOutcome.notFound em ∨
      outcome name = LoadOutcome.failed em) :
    (RunEffect.printNotFoundError name em ∈ run_etl (Except.ok rs) outcome ∨
      RunEffect.printLoadError name em ∈ run_etl (Except.ok rs) outcome) ∧
    (∀ n ∈ tableNames, RunEffect.attemptLoad n ∈ run_etl (Except.ok rs) outcome) ∧
    (run_etl (Except.ok rs) outcome).getLast? = some RunEffect.printFinished ∧
    ∀ w : Warehouse, applyTrace w (run_etl (Except.ok rs) outcome) name = w name := by
  have not_ok : outcome name ≠ LoadOutcome.ok := by
    rcases hf with h | h <;> simp [h]
  rw [run_etl_ok_of_splitOk rs outcome hsplit]
  refine ⟨?_, ?_, ?_, ?_⟩
  · fin_cases hn <;>
      · rcases logged_mem_block _ _ em outcome hf with h | h
        · left
          simp only [run_etl_ok_trace, List.mem_append, List.mem_cons]
          tauto
        · right
          simp only [run_etl_ok_trace, List.mem_append, List.mem_cons]
          tauto
  · have hbc := attemptLoad_mem_block (companyTable rs) "stats_company" outcome
    have hbj := attemptLoad_mem_block (jobTitleTable rs) "stats_job_title" outcome
    have hbm := attemptLoad_mem_block (majorTable rs) "stats_major" outcome
    have hbl := attemptLoad_mem_block (locationTable rs) "stats_location" outcome
    intro n hmem
    fin_cases hmem <;>
      · simp only [run_etl_ok_trace, List.mem_append, List.mem_cons]
        tauto
  · simp only [run_etl_ok_trace]
    exact List.getLast?_concat _
  · intro w
    simp only [run_etl_ok_trace, applyTrace_append]
    rw [show ∀ w0 : Warehouse, applyTrace w0 [RunEffect.printFinished] = w0
        from fun _ => rfl,
      applyTrace_block_of_not_ok _ _ _ _ _ not_ok,
      applyTrace_block_of_not_ok _ _ _ _ _ not_ok,
      applyTrace_block_of_not_ok _ _ _ _ _ not_ok,
      applyTrace_block_of_not_ok _ _ _ _ _ not_ok]
    rfl

/-- Closed instantiation of the amended C8: only the `stats_major` load
fails, and `rsMixed` contains a comma-bearing `Location`. -/
theorem load_failure_isolated_witness :
    (locationSplitOk rsMixed = true ∧
      "stats_major" ∈ tableNames ∧
      (outcomeMajorFails "stats_major" = LoadOutcome.notFound "quota exceeded" ∨
        outcomeMajorFails "stats_major" = LoadOutcome.failed "quota exceeded")) ∧
    ((RunEffect.printNotFoundError "stats_major" "quota exceeded" ∈
        run_etl (Except.ok rsMixed) outcomeMajorFails ∨
      RunEffect.printLoadError "stats_major" "quota exceeded" ∈
        run_etl (Except.ok rsMixed) outcomeMajorFails) ∧
    (∀ n ∈ tableNames,
      RunEffect.attemptLoad n ∈ run_etl (Except.ok rsMixed) outcomeMajorFails) ∧
    (run_etl (Except.ok rsMixed) outcomeMajorFails).getLast? =
      some RunEffect.printFinished ∧
    ∀ w : Warehouse,
      applyTrace w (run_etl (Except.ok rsMixed) outcomeMajorFails) "stats_major" =
        w "stats_major") :=
  ⟨⟨by decide, by decide, Or.inr (by decide)⟩,
    load_failure_isolated rsMixed outcomeMajorFails "stats_major" "quota exceeded"
      (by decide) (by decide) (Or.inr (by decide))⟩

end ETL
